import Mathlib

/-!
Verification of the `usa-congress-monitor` ingestion pipeline.

This file shallowly embeds the parts of the repository that the checked
properties speak about:

* `src/src/data_collection/data_collection.py` — the `CDGClient` pagination
  helpers (`get_bills_metadata`, `get_congressional_records`), the rate-pacing
  functions (`determine_pagination_wait`, `determine_simple_wait`) and the
  top-level `gather_congress_bills` walk (namespace `CDG`);
* `src/src/data_collection.py` — the older `retrieve_congress_bills` module
  (namespace `DataCollection`);
* `src/src/data_structures/bills.py` — `Bill.add_bill_details` (namespace
  `Bills`);
* `src/src/data_structures/congressional_records.py` —
  `CongressionalPDFLink.session_get` / `extract_text_from_pdf` /
  `model_post_init` and `CongressionalDigest.model_post_init`
  (namespace `Records`).

Modelling conventions: Python floats are modelled by `ℚ`; machine ints by
`ℤ`/`ℕ`; raw JSON items and decoded records are opaque (`ℕ`); a Python
function that can raise is modelled with `Except`/`Option`, the error value
standing for the exception; wall-clock reads (`time.time()`) are modelled by
passing the elapsed time explicitly; `time.sleep(w)` is modelled by returning
the slept duration (`0` when no sleep happens); network and file-system
effects are modelled by explicit outcome parameters and by counters in the
result.
-/

namespace CDG

/-- Module constant `RESULT_LIMIT = 250` of `data_collection.py`. -/
def RESULT_LIMIT : ℕ := 250

/-- Module constant `RATE_LIMIT_CONSTANT = 5000 / 60 / 60` (5000 requests per
hour), a Python float modelled as a rational. -/
def RATE_LIMIT_CONSTANT : ℚ := 5000 / 60 / 60

/-- Embedding of `determine_pagination_wait(start_time, offset)`.

The Python function reads `time.time()` and forms
`elapsed_time = current_time - start_time`; we pass `elapsed_time` directly.
`requests = max(RESULT_LIMIT, offset) / RESULT_LIMIT` (true division),
`rate = elapsed_time / requests`; if `rate < RATE_LIMIT_CONSTANT` the
function sleeps `RATE_LIMIT_CONSTANT - rate` seconds.  The returned value is
the duration passed to `time.sleep` (`0` when the branch is not taken). -/
def determine_pagination_wait (elapsed_time : ℚ) (offset : ℤ) : ℚ :=
  let requests : ℚ := max (RESULT_LIMIT : ℚ) (offset : ℚ) / (RESULT_LIMIT : ℚ)
  let rate : ℚ := elapsed_time / requests
  if rate < RATE_LIMIT_CONSTANT then RATE_LIMIT_CONSTANT - rate else 0

/-- Embedding of `determine_simple_wait(start_time, api_call_count)`.

`rate = elapsed_time / api_call_count` is an unguarded Python division: when
`api_call_count == 0` it raises `ZeroDivisionError`, modelled by `none`.
Otherwise the function sleeps `RATE_LIMIT_CONSTANT - rate` when
`rate < RATE_LIMIT_CONSTANT`; the `some` value is the slept duration. -/
def determine_simple_wait (elapsed_time : ℚ) (api_call_count : ℤ) : Option ℚ :=
  if api_call_count = 0 then none
  else
    let rate : ℚ := elapsed_time / (api_call_count : ℚ)
    some (if rate < RATE_LIMIT_CONSTANT then RATE_LIMIT_CONSTANT - rate else 0)

/-- A synthetic `GET /bill` page response, as read by `get_bills_metadata`:
the decoded `bills` array (items opaque), the parsed `offset` query parameter
of `pagination.next` when that link is present, and `pagination.count`. -/
structure BillsResponse where
  bills : List ℕ
  pagination_next : Option ℤ
  pagination_count : ℕ
deriving DecidableEq, Repr

/-- The value returned by `get_bills_metadata`: when the response carries a
`pagination.next` link it is the 3-tuple `(bills, offset, count)`; otherwise
the source returns the 4-tuple `(bills, response, -1, 0)`. -/
inductive BillsMetaReturn where
  | triple (bills : List ℕ) (offset : ℤ) (count : ℕ)
  | quadruple (bills : List ℕ) (resp : BillsResponse)
deriving DecidableEq, Repr

/-- Embedding of `CDGClient.get_bills_metadata` (response handling part; the
HTTP request itself is replaced by the synthetic `resp`).  The source:
`bills = response.get("bills", [])`; if `"next" in response["pagination"]`
return `(bills, extract_offset(next), pagination["count"])`, else return
`(bills, response, -1, 0)` — a 4-tuple. -/
def get_bills_metadata (resp : BillsResponse) : BillsMetaReturn :=
  match resp.pagination_next with
  | some off => .triple resp.bills off resp.pagination_count
  | none => .quadruple resp.bills resp

/-- Loop body of `gather_congress_bills`: `while offset != -1:` unpack
`result, offset, count = client.get_bills_metadata(...)` and extend `bills`.
Successive iterations consume successive synthetic responses.  Unpacking a
4-tuple into three names raises `ValueError`, modelled by `.error`; running
out of synthetic responses (the walk would fetch yet another page) is also an
error. -/
def gather_loop : List BillsResponse → List ℕ → Except String (List ℕ)
  | [], _ => .error "synthetic response sequence exhausted"
  | resp :: rest, acc =>
    match get_bills_metadata resp with
    | .triple bills off _count =>
      if off = -1 then .ok (acc ++ bills)
      else gather_loop rest (acc ++ bills)
    | .quadruple _ _ => .error "ValueError: too many values to unpack"

/-- Embedding of `gather_congress_bills(client, from_date, to_date)` driving
`get_bills_metadata` over a synthetic sequence of page responses (progress
bar and pacing sleeps elided; they do not affect the returned list). -/
def gather_congress_bills (responses : List BillsResponse) :
    Except String (List ℕ) :=
  gather_loop responses []

/-- The `Results` object of a congressional-record response.  `TotalCount`
and `IndexStart` are read with `.get`, hence may be absent (`none`). -/
structure RecordResults where
  Issues : List ℕ
  TotalCount : Option ℕ
  IndexStart : Option ℕ
deriving DecidableEq, Repr

/-- A congressional-record response `{ Results: {...} }`; the `Results` key
itself is read with `.get("Results", {})`. -/
structure RecordResponse where
  Results : Option RecordResults
deriving DecidableEq, Repr

/-- Embedding of `CDGClient.get_congressional_records` (response handling).
`records = response.get("Results",{}).get("Issues", [])`;
`total_results = ...get("TotalCount")`; `current_offset = ...get("IndexStart")`;
`new_offset = current_offset + len(Issues)` (raises `TypeError` when
`IndexStart` is absent, i.e. `None + int`); if `new_offset >= total_results`
(raises `TypeError` when `TotalCount` is absent) then `new_offset = -1`;
returns `(records, new_offset, total_results)`. -/
def get_congressional_records (resp : RecordResponse) :
    Except String (List ℕ × ℤ × ℕ) :=
  let records : List ℕ := ((resp.Results).map RecordResults.Issues).getD []
  let total_results := (resp.Results).bind RecordResults.TotalCount
  let current_offset := (resp.Results).bind RecordResults.IndexStart
  match current_offset with
  | none => .error "TypeError: unsupported operand type for +"
  | some c =>
    let new_offset : ℤ := (c : ℤ) + records.length
    match total_results with
    | none => .error "TypeError: not supported between instances"
    | some t =>
      let final_offset : ℤ := if new_offset ≥ (t : ℤ) then -1 else new_offset
      .ok (records, final_offset, t)

end CDG

namespace Records

/-- Behavior of one PDF-parsing pass (`PdfReader` + the page loop
`text += "\n" + page.extract_text() or ""`): either all pages are extracted,
or an exception is raised after some prefix of pages was already appended
(`raisesAfter []` covers `PdfReader` itself raising). -/
inductive PdfParse where
  | pages (ps : List String)
  | raisesAfter (ps : List String)
deriving DecidableEq, Repr

/-- Outcome of `download_pdf(self.url)` (the Selenium fallback): it returns
`lnk.split("/")[-1]` as the filename, or raises (e.g. a WebDriver error). -/
inductive DownloadResult where
  | fname (s : String)
  | raises
deriving DecidableEq, Repr

/-- One HTTP attempt of the retry-enabled session for the artifact URL:
a response with its status code and the parse behavior of its body, or a
transport failure (connection reset, incomplete read, chunked-encoding
error) surviving the bounded retries. -/
inductive HttpOutcome where
  | resp (status : ℕ) (body : PdfParse)
  | transportError
deriving DecidableEq, Repr

/-- Embedding of `CongressionalPDFLink.session_get`:
`response.raise_for_status()` raises `HTTPError` for any status `≥ 400`, and
every exception class is caught and turned into `return None`; transport
failures are likewise caught.  A returned response therefore always has
status `< 400`. -/
def session_get : HttpOutcome → Option (ℕ × PdfParse)
  | .resp status body => if 400 ≤ status then none else some (status, body)
  | .transportError => none

/-- The page-concatenation loop: `text` starts as `""` and each page appends
`"\n" + page.extract_text()` (the trailing `or ""` is dead: `"\n" + t` is
never falsy). -/
def concatPages (ps : List String) : String :=
  ps.foldl (fun acc p => acc ++ "\n" ++ p) ""

/-- Result of one `extract_text_from_pdf` execution. `outcome` is `.ok text`
when the method returns and `.error ()` when an exception propagates out of
it; `directFetches` counts `session_get` calls (each performing the direct
HTTP GET); `fallbackDownloads` counts `download_pdf` calls;
`tempFileRemoved` records whether `os.remove(filename)` executed. -/
structure ResolveResult where
  outcome : Except Unit String
  directFetches : ℕ
  fallbackDownloads : ℕ
  tempFileRemoved : Bool
deriving Repr

/-- Embedding of `CongressionalPDFLink.extract_text_from_pdf`.

Control flow of the source: one `session_get` call; if it returned `None`
(HTTP error or transport failure), a `try:` block runs `download_pdf`, opens
the file when the filename is truthy, parses page-by-page, runs `os.remove`,
and returns the text — any exception inside lands in `except:` which returns
whatever `text` accumulated.  If a response came back, a body with status
`!= 403` is parsed directly (no handler: a parse exception propagates);
the `== 403` branch repeats the download-and-parse sequence *without* a
`try:` (it is unreachable through `session_get`, which never returns a
`403` response, but it is embedded as written). -/
def extract_text_from_pdf (http : HttpOutcome) (dl : DownloadResult)
    (fparse : PdfParse) : ResolveResult :=
  match session_get http with
  | none =>
    match dl with
    | .raises => ⟨.ok "", 1, 1, false⟩
    | .fname s =>
      if s = "" then ⟨.ok "", 1, 1, false⟩
      else
        match fparse with
        | .pages ps => ⟨.ok (concatPages ps), 1, 1, true⟩
        | .raisesAfter ps => ⟨.ok (concatPages ps), 1, 1, false⟩
  | some (status, body) =>
    if status ≠ 403 then
      match body with
      | .pages ps => ⟨.ok (concatPages ps), 1, 0, false⟩
      | .raisesAfter _ => ⟨.error (), 1, 0, false⟩
    else
      match dl with
      | .raises => ⟨.error (), 1, 1, false⟩
      | .fname s =>
        if s = "" then ⟨.ok "", 1, 1, false⟩
        else
          match fparse with
          | .pages ps => ⟨.ok (concatPages ps), 1, 1, true⟩
          | .raisesAfter _ => ⟨.error (), 1, 1, false⟩

/-- Embedding of the `CongressionalPDFLink` model: part number, URL, and the
lazily resolved text (`Optional[str]`, default `""`). -/
structure CongressionalPDFLink where
  part : ℤ
  url : String
  text : Option String
deriving DecidableEq, Repr

/-- Python truthiness test `not self.text` on an `Optional[str]` field:
true for `None` and for the empty string. -/
def pyFalsyText : Option String → Bool
  | none => true
  | some s => s == ""

/-- Embedding of `CongressionalPDFLink.model_post_init`: when `self.text` is
falsy, `self.text = self.extract_text_from_pdf()`.  `extract_result` is the
text that an extraction run would produce; the second component counts
invocations of `extract_text_from_pdf` (each of which performs at least one
network fetch). -/
def CongressionalPDFLink.model_post_init (extract_result : String)
    (l : CongressionalPDFLink) : CongressionalPDFLink × ℕ :=
  if pyFalsyText l.text then ({ l with text := some extract_result }, 1)
  else (l, 0)

/-- Embedding of the `CongressionalDigest` model: label, ordinal, the PDF
parts, and the full text assembled by `model_post_init`. -/
structure CongressionalDigest where
  label : String
  ordinal : ℤ
  pdf : List CongressionalPDFLink
  full_text : Option String
deriving DecidableEq, Repr

/-- Embedding of `CongressionalDigest.model_post_init`:
`self.full_text = ""` then
`for pdf in self.pdf: self.full_text += pdf.text or ""`. -/
def CongressionalDigest.model_post_init (d : CongressionalDigest) :
    CongressionalDigest :=
  { d with
    full_text := some (d.pdf.foldl (fun acc p => acc ++ p.text.getD "") "") }

/-- The specification's reading of the digest text: the concatenation, in
list order, of the parts' text fields, a missing (`None`) text contributing
the empty string.  Stated by plain recursion, to be compared with the
imperative accumulation of `CongressionalDigest.model_post_init`. -/
def concatTextsSpec : List CongressionalPDFLink → String
  | [] => ""
  | p :: ps => p.text.getD "" ++ concatTextsSpec ps

end Records

namespace Bills

/-- The nine sub-resources fetched by `Bill.add_bill_details`, listed in the
insertion order of the `additional_bill_data` dict (Python dicts iterate in
insertion order). -/
inductive SubResource where
  | actions
  | amendments
  | committees
  | cosponsors
  | relatedBills
  | subjects
  | summaries
  | textVersions
  | titles
deriving DecidableEq, Repr

/-- Embedding of the `Bill` model: the metadata core (identity fields kept;
the remaining scalar fields do not affect enrichment) plus the nested
collections that `add_bill_details` fills in.  Decoded records are opaque
(`ℕ`); the single `Subjects` object is a one-element payload. -/
structure Bill where
  congress : ℕ
  number : String
  type : String
  title : String
  actions : List ℕ := []
  amendments : List ℕ := []
  committees : List ℕ := []
  cosponsors : List ℕ := []
  related_bills : List ℕ := []
  subjects : List ℕ := []
  summaries : List ℕ := []
  text_versions : List ℕ := []
  titles : List ℕ := []
  full_text : Option String := some ""
deriving DecidableEq, Repr

/-- Embedding of `Bill.add_bill_details(client)`.

`fetch s` stands for the pair `client.get(f"bill/{...}/{endpoint}")` followed
by the decode (`[Action(**x) for x in ...]` etc.) for sub-resource `s`: the
source performs all nine fetches in dict order inside the `for` loop and then
the decodes, with **no** exception handler anywhere, so the first failing
fetch or decode propagates out of the method; merging fetch and decode into
one `Except` per sub-resource preserves exactly that raise-on-first-failure
behavior.  `full_text_result` stands for the final
`self.full_text = self.add_full_text(client)` call (which returns `None`
when no "Formatted Text" format exists, and re-raises a wrapped exception on
a document-fetch failure).  Mirroring the source, the `committees` payload is
fetched but never assigned to `self.committees`. -/
def Bill.add_bill_details (fetch : SubResource → Except String (List ℕ))
    (full_text_result : Except String (Option String)) (self : Bill) :
    Except String Bill := do
  let dActions ← fetch .actions
  let dAmendments ← fetch .amendments
  let _dCommittees ← fetch .committees
  let dCosponsors ← fetch .cosponsors
  let dRelatedBills ← fetch .relatedBills
  let dSubjects ← fetch .subjects
  let dSummaries ← fetch .summaries
  let dTextVersions ← fetch .textVersions
  let dTitles ← fetch .titles
  let ft ← full_text_result
  pure { self with
    actions := dActions
    amendments := dAmendments
    cosponsors := dCosponsors
    related_bills := dRelatedBills
    subjects := dSubjects
    summaries := dSummaries
    text_versions := dTextVersions
    titles := dTitles
    full_text := ft }

/-- A concrete fan-out outcome in which exactly one of the nine sub-resource
calls (`cosponsors`) fails and the other eight succeed. -/
def failingFetch : SubResource → Except String (List ℕ)
  | .cosponsors => .error "HTTPError: 500 Server Error"
  | _ => .ok []

/-- A concrete metadata core used to exercise `add_bill_details`. -/
def sampleBill : Bill :=
  { congress := 119, number := "1", type := "HR", title := "A sample bill" }

end Bills

namespace DataCollection

/-- Module constant `RESULT_LIMIT = 250` of the older `data_collection.py`. -/
def RESULT_LIMIT : ℕ := 250

/-- A synthetic response to the `GET bill` request issued by
`retrieve_congress_bills`: HTTP status, the raw `bills` array (raw items
opaque), the parsed `offset` parameter of `pagination.next` when present,
and `pagination.count`. -/
structure BillsPageResponse where
  status_code : ℕ
  bills : List ℕ
  pagination_next : Option ℤ
  pagination_count : ℕ
deriving DecidableEq, Repr

/-- The list comprehension
`[Bill.model_validate(bill) for bill in bills]`: items are validated left to
right and the first `ValidationError` propagates, abandoning the whole
comprehension. -/
def validateAll (validate : ℕ → Except String ℕ) :
    List ℕ → Except String (List ℕ)
  | [] => .ok []
  | x :: xs =>
    match validate x with
    | .error e => .error e
    | .ok y =>
      match validateAll validate xs with
      | .error e => .error e
      | .ok ys => .ok (y :: ys)

/-- Embedding of `retrieve_congress_bills(from_date, to_date, offset)`
(response handling part; the HTTP request is replaced by the synthetic
`resp`, and `Bill.model_validate` by the `validate` parameter).  On status
200 the raw items are validated by the comprehension; afterwards the
pagination triple is formed as in the source (`(prepared_bills, -1, 0)` when
no `next` link).  Any other status reaches `response.raise_for_status()`,
which raises `HTTPError` only for a 4xx/5xx status; for every other non-200
status (e.g. 204 or a 3xx) it is a no-op and the function falls off the end,
implicitly returning `None` — modelled by `.ok none` (the `.ok some` cases
are the explicit `return` statements). -/
def retrieve_congress_bills (validate : ℕ → Except String ℕ)
    (resp : BillsPageResponse) : Except String (Option (List ℕ × ℤ × ℕ)) :=
  if resp.status_code = 200 then
    match validateAll validate resp.bills with
    | .error e => .error e
    | .ok prepared =>
      match resp.pagination_next with
      | some nxt => .ok (some (prepared, nxt, resp.pagination_count))
      | none => .ok (some (prepared, -1, 0))
  else if 400 ≤ resp.status_code ∧ resp.status_code ≤ 599 then
    .error "HTTPError"
  else .ok none

/-- A concrete validator that rejects the raw item `3` and accepts every
other item unchanged. -/
def rejectThree : ℕ → Except String ℕ :=
  fun n => if n = 3 then .error "ValidationError" else .ok n

end DataCollection

/-- Helper: in the fail-fast comprehension `validateAll`, the presence of any
invalid item makes the whole comprehension fail (with the error of the first
invalid item encountered). -/
theorem validateAll_error_of_mem (validate : ℕ → Except String ℕ)
    (l : List ℕ) (x : ℕ) (e : String) (hx : x ∈ l)
    (hval : validate x = .error e) :
    ∃ err, DataCollection.validateAll validate l = .error err := by
  induction l with
  | nil => cases hx
  | cons y ys ih =>
    unfold DataCollection.validateAll
    cases hy : validate y with
    | error e' => exact ⟨e', rfl⟩
    | ok v =>
      rcases List.mem_cons.mp hx with rfl | hxs
      · rw [hval] at hy; cases hy
      · rcases ih hxs with ⟨err, herr⟩
        rw [herr]
        exact ⟨err, rfl⟩

/-- Helper: the accumulator form of the digest text loop equals the
accumulator followed by the recursive concatenation. -/
theorem foldl_concatTexts (l : List Records.CongressionalPDFLink)
    (acc : String) :
    l.foldl (fun acc p => acc ++ p.text.getD "") acc =
      acc ++ Records.concatTextsSpec l := by
  induction l generalizing acc with
  | nil => simp [Records.concatTextsSpec]
  | cons p ps ih =>
    simp only [List.foldl_cons, Records.concatTextsSpec, ih,
      String.append_assoc]

/-- Claim C1: for a metadata record where exactly one of the nine
sub-resource fetch/decode calls fails, `add_bill_details` is claimed not to
raise, returning a record with the eight succeeding collections populated and
the failing one empty.  Counterexample: with `failingFetch` — only the
`cosponsors` call fails, the other eight succeed — the method raises: the
`HTTPError` propagates and no record is returned. -/
theorem add_bill_details_single_failure_cex :
    Bills.Bill.add_bill_details Bills.failingFetch (.ok none)
        Bills.sampleBill =
      .error "HTTPError: 500 Server Error" := rfl

/-- Claim C1 (amended): when exactly one of the nine sub-resource
fetch/decode calls fails (and for that matter whenever at least one fails),
`add_bill_details` raises — the exception propagates out of the method, no
enriched record is returned, and the failure is not recorded anywhere. -/
theorem add_bill_details_error_of_subresource_failure
    (fetch : Bills.SubResource → Except String (List ℕ))
    (full_text_result : Except String (Option String)) (b : Bills.Bill)
    (s0 : Bills.SubResource) (e : String)
    (h1 : fetch s0 = .error e)
    (h2 : ∀ s, s ≠ s0 → ∃ v, fetch s = .ok v) :
    ∃ err, Bills.Bill.add_bill_details fetch full_text_result b =
      .error err := by
  cases s0 with
  | actions =>
    exact ⟨e, by simp [Bills.Bill.add_bill_details, Bind.bind, Except.bind, h1]⟩
  | amendments =>
    obtain ⟨v1, hv1⟩ := h2 .actions (by decide)
    exact ⟨e, by simp [Bills.Bill.add_bill_details, Bind.bind, Except.bind, hv1, h1]⟩
  | committees =>
    obtain ⟨v1, hv1⟩ := h2 .actions (by decide)
    obtain ⟨v2, hv2⟩ := h2 .amendments (by decide)
    exact ⟨e, by simp [Bills.Bill.add_bill_details, Bind.bind, Except.bind, hv1, hv2, h1]⟩
  | cosponsors =>
    obtain ⟨v1, hv1⟩ := h2 .actions (by decide)
    obtain ⟨v2, hv2⟩ := h2 .amendments (by decide)
    obtain ⟨v3, hv3⟩ := h2 .committees (by decide)
    exact ⟨e, by simp [Bills.Bill.add_bill_details, Bind.bind, Except.bind, hv1, hv2, hv3, h1]⟩
  | relatedBills =>
    obtain ⟨v1, hv1⟩ := h2 .actions (by decide)
    obtain ⟨v2, hv2⟩ := h2 .amendments (by decide)
    obtain ⟨v3, hv3⟩ := h2 .committees (by decide)
    obtain ⟨v4, hv4⟩ := h2 .cosponsors (by decide)
    exact ⟨e, by simp [Bills.Bill.add_bill_details, Bind.bind, Except.bind, hv1, hv2, hv3, hv4, h1]⟩
  | subjects =>
    obtain ⟨v1, hv1⟩ := h2 .actions (by decide)
    obtain ⟨v2, hv2⟩ := h2 .amendments (by decide)
    obtain ⟨v3, hv3⟩ := h2 .committees (by decide)
    obtain ⟨v4, hv4⟩ := h2 .cosponsors (by decide)
    obtain ⟨v5, hv5⟩ := h2 .relatedBills (by decide)
    exact ⟨e, by simp [Bills.Bill.add_bill_details, Bind.bind, Except.bind, hv1, hv2, hv3, hv4, hv5,
      h1]⟩
  | summaries =>
    obtain ⟨v1, hv1⟩ := h2 .actions (by decide)
    obtain ⟨v2, hv2⟩ := h2 .amendments (by decide)
    obtain ⟨v3, hv3⟩ := h2 .committees (by decide)
    obtain ⟨v4, hv4⟩ := h2 .cosponsors (by decide)
    obtain ⟨v5, hv5⟩ := h2 .relatedBills (by decide)
    obtain ⟨v6, hv6⟩ := h2 .subjects (by decide)
    exact ⟨e, by simp [Bills.Bill.add_bill_details, Bind.bind, Except.bind, hv1, hv2, hv3, hv4, hv5,
      hv6, h1]⟩
  | textVersions =>
    obtain ⟨v1, hv1⟩ := h2 .actions (by decide)
    obtain ⟨v2, hv2⟩ := h2 .amendments (by decide)
    obtain ⟨v3, hv3⟩ := h2 .committees (by decide)
    obtain ⟨v4, hv4⟩ := h2 .cosponsors (by decide)
    obtain ⟨v5, hv5⟩ := h2 .relatedBills (by decide)
    obtain ⟨v6, hv6⟩ := h2 .subjects (by decide)
    obtain ⟨v7, hv7⟩ := h2 .summaries (by decide)
    exact ⟨e, by simp [Bills.Bill.add_bill_details, Bind.bind, Except.bind, hv1, hv2, hv3, hv4, hv5,
      hv6, hv7, h1]⟩
  | titles =>
    obtain ⟨v1, hv1⟩ := h2 .actions (by decide)
    obtain ⟨v2, hv2⟩ := h2 .amendments (by decide)
    obtain ⟨v3, hv3⟩ := h2 .committees (by decide)
    obtain ⟨v4, hv4⟩ := h2 .cosponsors (by decide)
    obtain ⟨v5, hv5⟩ := h2 .relatedBills (by decide)
    obtain ⟨v6, hv6⟩ := h2 .subjects (by decide)
    obtain ⟨v7, hv7⟩ := h2 .summaries (by decide)
    obtain ⟨v8, hv8⟩ := h2 .textVersions (by decide)
    exact ⟨e, by simp [Bills.Bill.add_bill_details, Bind.bind, Except.bind, hv1, hv2, hv3, hv4, hv5,
      hv6, hv7, hv8, h1]⟩

/-- Witness for `add_bill_details_error_of_subresource_failure` at the
concrete fan-out `failingFetch` (only `cosponsors` fails). -/
theorem add_bill_details_error_witness :
    Bills.failingFetch .cosponsors = .error "HTTPError: 500 Server Error" ∧
      ∃ err, Bills.Bill.add_bill_details Bills.failingFetch (.ok none)
        Bills.sampleBill = .error err :=
  ⟨rfl,
    add_bill_details_error_of_subresource_failure Bills.failingFetch
      (.ok none) Bills.sampleBill .cosponsors "HTTPError: 500 Server Error"
      rfl
      (by intro s hs; cases s <;> simp_all [Bills.failingFetch])⟩

/-- Claim C2: for every finite sequence of synthetic page responses whose
last response lacks a `next` pagination link, `gather_congress_bills`
driving `get_bills_metadata` is claimed to terminate and return the
concatenation of all pages' items.  The code disagrees: on a final page with
no `next` link `get_bills_metadata` returns the 4-tuple
`(bills, response, -1, 0)`, and the caller's three-name unpacking raises
`ValueError` instead of returning the accumulated bills.  This theorem
evaluates the walk at the failing input, a single page
`{bills: [10, 20], pagination: {count: 2}}` carrying no `next` link. -/
theorem gather_congress_bills_last_page_valueerror :
    CDG.gather_congress_bills [⟨[10, 20], none, 2⟩] =
      .error "ValueError: too many values to unpack" := rfl

/-- Claim C3: on the first pacing call of a walk, when elapsed time since
start is zero, `determine_pagination_wait` is claimed to impose no wait
(sleep for zero time).  Counterexample: at elapsed time `0` and offset `250`
(the offset after the first page) the function sleeps
`RATE_LIMIT_CONSTANT = 25/18 ≈ 1.39` seconds, which is not zero. -/
theorem determine_pagination_wait_first_call_cex :
    CDG.determine_pagination_wait 0 250 ≠ 0 := by
  unfold CDG.determine_pagination_wait CDG.RATE_LIMIT_CONSTANT CDG.RESULT_LIMIT
  norm_num

/-- Claim C3 (amended): on a pacing call with zero elapsed time — in
particular the first call of a walk — `determine_pagination_wait` sleeps for
the full `RATE_LIMIT_CONSTANT` (≈ 1.389 s), the maximum possible wait, for
every offset; it does not skip the wait. -/
theorem determine_pagination_wait_zero_elapsed (offset : ℤ) :
    CDG.determine_pagination_wait 0 offset = CDG.RATE_LIMIT_CONSTANT := by
  unfold CDG.determine_pagination_wait
  have hlim : (0 : ℚ) < CDG.RATE_LIMIT_CONSTANT := by
    unfold CDG.RATE_LIMIT_CONSTANT; norm_num
  simp [zero_div, hlim]

/-- Claim C9: the pacing controller is claimed never to fail, for every
requests-issued count accepted at its interface including a count of zero on
`determine_simple_wait`'s division by `api_call_count`.  Counterexample: at
`api_call_count = 0` the division `elapsed_time / api_call_count` raises
`ZeroDivisionError` (modelled by `none`). -/
theorem determine_simple_wait_zero_count_cex :
    CDG.determine_simple_wait 0 0 = none := by
  unfold CDG.determine_simple_wait
  simp

/-- Claim C9 (amended): `determine_simple_wait` completes without raising for
every nonzero `api_call_count` (and `determine_pagination_wait` is total by
construction); only a count of zero makes its division raise
`ZeroDivisionError`. -/
theorem determine_simple_wait_ok_of_nonzero (elapsed_time : ℚ)
    (api_call_count : ℤ) (h : api_call_count ≠ 0) :
    (CDG.determine_simple_wait elapsed_time api_call_count).isSome := by
  unfold CDG.determine_simple_wait
  simp [h]

/-- Witness for `determine_simple_wait_ok_of_nonzero` at elapsed time `1`
and call count `5`. -/
theorem determine_simple_wait_ok_witness :
    (5 : ℤ) ≠ 0 ∧ (CDG.determine_simple_wait 1 5).isSome :=
  ⟨by decide, determine_simple_wait_ok_of_nonzero 1 5 (by decide)⟩

/-- Claim C4: resolving a `CongressionalPDFLink` whose `text` is already
populated — including when the populated text is the empty string — is
claimed to return identical text with no further network fetch.
Counterexample: a link whose `text` is the (populated) empty string is
re-resolved: `model_post_init` runs one more extraction (second component
`1`, a further network fetch) and overwrites the text. -/
theorem pdf_link_empty_text_refetch_cex :
    (Records.CongressionalPDFLink.model_post_init "recovered text"
        ⟨1, "https://www.congress.gov/part1.pdf", some ""⟩).2 = 1 ∧
      (Records.CongressionalPDFLink.model_post_init "recovered text"
        ⟨1, "https://www.congress.gov/part1.pdf", some ""⟩).1.text ≠
        some "" := by
  refine ⟨rfl, ?_⟩
  simp [Records.CongressionalPDFLink.model_post_init, Records.pyFalsyText]

/-- Claim C4 (amended): resolution is idempotent only for non-empty text:
when a link's `text` is a non-empty string, `model_post_init` returns the
link unchanged and performs no extraction (hence no network fetch); a `None`
or empty-string text triggers (re-)extraction. -/
theorem pdf_link_resolution_idempotent_nonempty
    (l : Records.CongressionalPDFLink) (extract_result s : String)
    (h : l.text = some s) (hs : s ≠ "") :
    Records.CongressionalPDFLink.model_post_init extract_result l = (l, 0) := by
  unfold Records.CongressionalPDFLink.model_post_init
  rw [h]
  simp [Records.pyFalsyText, hs]

/-- Witness for `pdf_link_resolution_idempotent_nonempty` at a link whose
text is the non-empty string `"T"`. -/
theorem pdf_link_resolution_idempotent_witness :
    (Records.CongressionalPDFLink.mk 1 "https://example.gov/a.pdf"
          (some "T")).text = some "T" ∧
      "T" ≠ "" ∧
      Records.CongressionalPDFLink.model_post_init "other"
          ⟨1, "https://example.gov/a.pdf", some "T"⟩ =
        (⟨1, "https://example.gov/a.pdf", some "T"⟩, 0) :=
  ⟨rfl, by decide,
    pdf_link_resolution_idempotent_nonempty _ "other" "T" rfl (by decide)⟩

/-- Claim C5: a page of raw items in which exactly one item fails schema
validation is claimed to yield all remaining valid items with the one skip
recorded.  Counterexample: a 200 page of ten raw items where only item `3`
fails validation makes `retrieve_congress_bills` raise the
`ValidationError`, returning none of the nine valid items. -/
theorem retrieve_congress_bills_validation_cex :
    DataCollection.retrieve_congress_bills DataCollection.rejectThree
        ⟨200, [0, 1, 2, 3, 4, 5, 6, 7, 8, 9], none, 0⟩ =
      .error "ValidationError" := rfl

/-- Claim C5 (amended): on a 200 page (the only status on which validation
runs at all), a raw item that fails schema validation is not skipped: the
`ValidationError` propagates out of `retrieve_congress_bills`, discarding
the whole page — no items of that page are returned and nothing is
recorded. -/
theorem retrieve_congress_bills_error_of_invalid_item
    (validate : ℕ → Except String ℕ)
    (resp : DataCollection.BillsPageResponse) (x : ℕ) (e : String)
    (hst : resp.status_code = 200)
    (hx : x ∈ resp.bills) (hval : validate x = .error e) :
    ∃ err, DataCollection.retrieve_congress_bills validate resp =
      .error err := by
  unfold DataCollection.retrieve_congress_bills
  rcases validateAll_error_of_mem validate resp.bills x e hx hval with
    ⟨err, herr⟩
  rw [if_pos hst, herr]
  exact ⟨err, rfl⟩

/-- Witness for `retrieve_congress_bills_error_of_invalid_item` at the
ten-item 200 page whose item `3` fails validation. -/
theorem retrieve_congress_bills_error_witness :
    (DataCollection.BillsPageResponse.mk 200
        [0, 1, 2, 3, 4, 5, 6, 7, 8, 9] none 0).status_code = 200 ∧
      (3 : ℕ) ∈ (DataCollection.BillsPageResponse.mk 200
        [0, 1, 2, 3, 4, 5, 6, 7, 8, 9] none 0).bills ∧
      DataCollection.rejectThree 3 = .error "ValidationError" ∧
      ∃ err, DataCollection.retrieve_congress_bills DataCollection.rejectThree
        ⟨200, [0, 1, 2, 3, 4, 5, 6, 7, 8, 9], none, 0⟩ = .error err :=
  ⟨rfl, by decide, rfl,
    retrieve_congress_bills_error_of_invalid_item DataCollection.rejectThree
      ⟨200, [0, 1, 2, 3, 4, 5, 6, 7, 8, 9], none, 0⟩ 3 "ValidationError"
      rfl (by decide) rfl⟩

/-- Claim C6: in the post-fallback parsing step of `extract_text_from_pdf`,
the downloaded temporary file is claimed to be deleted in every execution
that reaches parsing, including executions where PDF parsing fails.
Counterexample: a fallback execution (transport failure on the direct fetch)
that downloads `part1.pdf` and then fails inside `PdfReader` leaves
`os.remove` unexecuted — the temporary file is not deleted. -/
theorem extract_text_parse_failure_no_cleanup_cex :
    (Records.extract_text_from_pdf .transportError (.fname "part1.pdf")
        (.raisesAfter [])).tempFileRemoved = false := rfl

/-- Claim C6 (amended): the downloaded temporary file is deleted exactly in
the executions where the direct fetch failed (fallback taken), the download
materialized a (truthy) filename, and the PDF parse succeeded; when the
parse raises, the exception skips `os.remove` and the file is left on disk. -/
theorem temp_file_removed_iff (http : Records.HttpOutcome)
    (dl : Records.DownloadResult) (fparse : Records.PdfParse) :
    (Records.extract_text_from_pdf http dl fparse).tempFileRemoved = true ↔
      Records.session_get http = none ∧
        (∃ s, dl = .fname s ∧ s ≠ "" ∧ ∃ ps, fparse = .pages ps) := by
  cases http with
  | transportError =>
    cases dl with
    | raises => simp [Records.extract_text_from_pdf, Records.session_get]
    | fname s =>
      by_cases hs : s = "" <;>
        cases fparse <;>
          simp [Records.extract_text_from_pdf, Records.session_get, hs]
  | resp status body =>
    by_cases h4 : 400 ≤ status
    · cases dl with
      | raises => simp [Records.extract_text_from_pdf, Records.session_get, h4]
      | fname s =>
        by_cases hs : s = "" <;>
          cases fparse <;>
            simp [Records.extract_text_from_pdf, Records.session_get, h4, hs]
    · have h403 : status ≠ 403 := by omega
      cases body <;>
        simp [Records.extract_text_from_pdf, Records.session_get, h4, h403]

/-- Claim C7: for every congressional-record response of shape
`{ Results: { Issues, TotalCount, IndexStart } }` (all three fields present),
`get_congressional_records` returns the `Issues` list together with
next-offset `IndexStart + len(Issues)`, replaced by the terminal sentinel
`-1` exactly when that sum reaches or exceeds `TotalCount`, and echoes
`TotalCount`. -/
theorem get_congressional_records_next_offset (resp : CDG.RecordResponse)
    (issues : List ℕ) (tc idx : ℕ)
    (h : resp.Results = some ⟨issues, some tc, some idx⟩) :
    CDG.get_congressional_records resp =
      .ok (issues,
        if (idx : ℤ) + issues.length ≥ (tc : ℤ) then -1
          else (idx : ℤ) + issues.length,
        tc) := by
  unfold CDG.get_congressional_records
  rw [h]
  rfl

/-- Witness for `get_congressional_records_next_offset`: a response with
three issues at `IndexStart = 0` out of `TotalCount = 5` yields next-offset
`3`; the hypothesis is discharged at the concrete record. -/
theorem get_congressional_records_next_offset_witness :
    (CDG.RecordResponse.mk (some ⟨[7, 8, 9], some 5, some 0⟩)).Results =
        some ⟨[7, 8, 9], some 5, some 0⟩ ∧
      CDG.get_congressional_records
          (CDG.RecordResponse.mk (some ⟨[7, 8, 9], some 5, some 0⟩)) =
        .ok ([7, 8, 9],
          if (0 : ℤ) + ([7, 8, 9] : List ℕ).length ≥ ((5 : ℕ) : ℤ) then -1
            else (0 : ℤ) + ([7, 8, 9] : List ℕ).length,
          5) :=
  ⟨rfl, get_congressional_records_next_offset _ [7, 8, 9] 5 0 rfl⟩

/-- Claim C8: a direct fetch answered with HTTP 403 triggers exactly one
fallback download and no further direct fetch within the same resolution:
for every response body, download outcome, and fallback parse behavior,
`extract_text_from_pdf` on a 403 response performs exactly one
`download_pdf` call and exactly one `session_get` call in total (the
initial one — none after the 403). -/
theorem extract_text_403_single_fallback (body fparse : Records.PdfParse)
    (dl : Records.DownloadResult) :
    (Records.extract_text_from_pdf (.resp 403 body) dl
        fparse).fallbackDownloads = 1 ∧
      (Records.extract_text_from_pdf (.resp 403 body) dl
        fparse).directFetches = 1 := by
  cases dl with
  | raises => simp [Records.extract_text_from_pdf, Records.session_get]
  | fname s =>
    by_cases hs : s = "" <;>
      cases fparse <;>
        simp [Records.extract_text_from_pdf, Records.session_get, hs]

/-- Claim C10: after construction of a `CongressionalDigest`, its
`full_text` field equals the concatenation, in list order, of the text
fields of its `pdf` parts, a missing (`None`) part text contributing the
empty string. -/
theorem digest_full_text_concat (d : Records.CongressionalDigest) :
    (Records.CongressionalDigest.model_post_init d).full_text =
      some (Records.concatTextsSpec d.pdf) := by
  unfold Records.CongressionalDigest.model_post_init
  simp [foldl_concatTexts]
